import Mathlib

/-!
Shallow embedding of `hyper-tls-api` (`src/lib.rs`): an async HTTPS connector
composing a raw transport connect with an optional TLS handshake.

Modelling conventions:
- Machine I/O results (`io::Result<T>`) become `Except IoError T`; the
  distinguished `WouldBlock` error kind is a constructor of `IoErrorKind`.
- A future's `Poll<(), io::Error>` becomes `PollUnit`.
- The backend TLS library (`tls_api`) is abstract: completed sessions,
  fatal errors and mid-handshake sessions are type parameters; the
  mid-handshake resume step `s.handshake()` is a parameter function.
- Panics (`expect`, `unimplemented!`) are explicit outcomes, never silent.
- Where a claim is about which external operations run and in which order,
  the embedding returns a call log alongside the result; each appended log
  entry corresponds to one call site in the source.
-/

/-- The error kind of a `std::io::Error`; only `WouldBlock` is inspected by
the source (in `try_nb!`). -/
inductive IoErrorKind
  | wouldBlock
  | other (code : Nat)
deriving DecidableEq

/-- A `std::io::Error`, reduced to the data the source inspects. -/
structure IoError where
  kind : IoErrorKind
deriving DecidableEq

/-- `futures::Poll<(), io::Error>`: `Ok(Async::Ready(()))`, `Ok(Async::NotReady)`
or `Err(e)`. -/
inductive PollUnit
  | ready
  | notReady
  | ioErr (e : IoError)
deriving DecidableEq

/-- `Result<tls_api::TlsStream<S>, HandshakeError<S>>`: the three-way outcome of
one non-blocking handshake step. `T` is the completed backend stream, `E` the
fatal backend error, `P` the mid-handshake (interrupted) session. -/
inductive HsResult (T E P : Type)
  | ok (t : T)
  | failure (e : E)
  | interrupted (p : P)
deriving DecidableEq

/-- `TlsStream<S>` (src/lib.rs:174-177): wrapper owning the backend stream
`tls_api::TlsStream<S>`, here the abstract type `U`. -/
structure TlsStream (U : Type) where
  inner : U
deriving DecidableEq

/-- `MidHandshake<S>` (src/lib.rs:187-189): holds
`Option<Result<tls_api::TlsStream<S>, HandshakeError<S>>>`. -/
structure MidHandshake (T E P : Type) where
  inner : Option (HsResult T E P)
deriving DecidableEq

/-- `ConnectAsync<S>` (src/lib.rs:179-181). -/
structure ConnectAsync (T E P : Type) where
  inner : MidHandshake T E P
deriving DecidableEq

/-- The observable outcome of one `poll` of a future yielding a `TlsStream`:
ready with the stream, not ready, a backend error, or a panic (the source
panics via `expect` on reuse). -/
inductive PollOutcome (T E P : Type)
  | ready (s : TlsStream T)
  | notReady
  | error (e : E)
  | panicked (msg : String)
deriving DecidableEq

/-- `<MidHandshake<S> as Future>::poll` (src/lib.rs:275-288).
`hs` is the backend resume step `s.handshake()` on an interrupted session.
Returns the successor state, the outcome, and the list of interrupted
sessions on which `hs` was invoked (one entry per `s.handshake()` call in
the source). The source begins with `self.inner.take().expect(...)`: a
`None` slot panics, otherwise the slot is emptied and refilled only in the
still-interrupted case. -/
def MidHandshake.poll {T E P : Type} (hs : P → HsResult T E P)
    (m : MidHandshake T E P) :
    MidHandshake T E P × PollOutcome T E P × List P :=
  match m.inner with
  | none => (⟨none⟩, .panicked "cannot poll MidHandshake twice", [])
  | some (.ok stream) => (⟨none⟩, .ready ⟨stream⟩, [])
  | some (.failure e) => (⟨none⟩, .error e, [])
  | some (.interrupted s) =>
    match hs s with
    | .ok stream => (⟨none⟩, .ready ⟨stream⟩, [s])
    | .failure e => (⟨none⟩, .error e, [s])
    | .interrupted s2 => (⟨some (.interrupted s2)⟩, .notReady, [s])

/-- `<ConnectAsync<S> as Future>::poll` (src/lib.rs:251-258): forwards to the
inner `MidHandshake`. -/
def ConnectAsync.poll {T E P : Type} (hs : P → HsResult T E P)
    (c : ConnectAsync T E P) :
    ConnectAsync T E P × PollOutcome T E P × List P :=
  match c.inner.poll hs with
  | (m, out, log) => (⟨m⟩, out, log)

/-- `connect_async` (src/lib.rs:226-236). `connect` is the backend's
`connector.connect(domain, stream)` begin-handshake capability; the returned
list logs its invocations (the source has exactly one call site, executed at
construction). The initial state stores that call's outcome. -/
def connect_async {T E P St : Type} (connect : String → St → HsResult T E P)
    (domain : String) (stream : St) :
    ConnectAsync T E P × List (String × St) :=
  (⟨⟨some (connect domain stream)⟩⟩, [(domain, stream)])

/-- Operations of an abstract byte stream with state type `τ`: `read`, `write`
and `flush` acting on a buffer of bytes, returning the updated stream and a
`std::io` result. -/
structure StreamOps (τ : Type) where
  read : τ → List Nat → τ × Except IoError Nat
  write : τ → List Nat → τ × Except IoError Nat
  flush : τ → τ × Except IoError Unit

/-- `<TlsStream<S> as Read>::read` (src/lib.rs:201-205): forwards to the inner
backend stream. -/
def TlsStream.read {U : Type} (uOps : StreamOps U) (s : TlsStream U)
    (buf : List Nat) : TlsStream U × Except IoError Nat :=
  match uOps.read s.inner buf with
  | (u, r) => (⟨u⟩, r)

/-- `<TlsStream<S> as Write>::write` (src/lib.rs:207-210). -/
def TlsStream.write {U : Type} (uOps : StreamOps U) (s : TlsStream U)
    (buf : List Nat) : TlsStream U × Except IoError Nat :=
  match uOps.write s.inner buf with
  | (u, r) => (⟨u⟩, r)

/-- `<TlsStream<S> as Write>::flush` (src/lib.rs:212-214). -/
def TlsStream.flush {U : Type} (uOps : StreamOps U) (s : TlsStream U) :
    TlsStream U × Except IoError Unit :=
  match uOps.flush s.inner with
  | (u, r) => (⟨u⟩, r)

/-- `MaybeHttpsStream<T>` (src/lib.rs:109-114): plaintext stream or
TLS-protected stream. `T` is the raw transport, `U` the backend TLS stream
inside `TlsStream`. -/
inductive MaybeHttpsStream (T U : Type)
  | Http (s : T)
  | Https (s : TlsStream U)
deriving DecidableEq

/-- `<MaybeHttpsStream<T> as Read>::read` (src/lib.rs:143-151): dispatch on the
held variant, forwarding the call. -/
def MaybeHttpsStream.read {T U : Type} (tOps : StreamOps T) (uOps : StreamOps U) :
    MaybeHttpsStream T U → List Nat →
    MaybeHttpsStream T U × Except IoError Nat
  | .Http s, buf =>
    match tOps.read s buf with
    | (s2, r) => (.Http s2, r)
  | .Https s, buf =>
    match TlsStream.read uOps s buf with
    | (s2, r) => (.Https s2, r)

/-- `<MaybeHttpsStream<T> as Write>::write` (src/lib.rs:127-132). -/
def MaybeHttpsStream.write {T U : Type} (tOps : StreamOps T) (uOps : StreamOps U) :
    MaybeHttpsStream T U → List Nat →
    MaybeHttpsStream T U × Except IoError Nat
  | .Http s, buf =>
    match tOps.write s buf with
    | (s2, r) => (.Http s2, r)
  | .Https s, buf =>
    match TlsStream.write uOps s buf with
    | (s2, r) => (.Https s2, r)

/-- `<MaybeHttpsStream<T> as Write>::flush` (src/lib.rs:135-140). -/
def MaybeHttpsStream.flush {T U : Type} (tOps : StreamOps T) (uOps : StreamOps U) :
    MaybeHttpsStream T U →
    MaybeHttpsStream T U × Except IoError Unit
  | .Http s =>
    match tOps.flush s with
    | (s2, r) => (.Http s2, r)
  | .Https s =>
    match TlsStream.flush uOps s with
    | (s2, r) => (.Https s2, r)

/-- The two external shutdown calls a `TlsStream::shutdown` poll can make, in
log order: the backend encryption-layer close (`self.inner.shutdown()`) and the
raw transport shutdown (`self.inner.get_mut().shutdown()`). -/
inductive ShutdownCall
  | tlsClose
  | rawShutdown
deriving DecidableEq

/-- The shutdown-relevant operations of the backend `tls_api::TlsStream`:
`shutdown` drives the encryption-layer close (an `io::Result<()>`, where a
`WouldBlock` kind means the close needs more polls), and `rawShutdown` is
`get_mut().shutdown()`, the raw transport shutdown beneath it. -/
structure TlsShutdownOps (U : Type) where
  shutdown : U → U × Except IoError Unit
  rawShutdown : U → U × PollUnit

/-- `<TlsStream<S> as AsyncWrite>::shutdown` (src/lib.rs:219-224):
`try_nb!(self.inner.shutdown()); self.inner.get_mut().shutdown()`.
`try_nb!` maps `Err(e)` with kind `WouldBlock` to `Ok(Async::NotReady)`,
returns any other `Err(e)` as-is, and on `Ok` falls through to the raw
transport shutdown. The third component logs the external calls made. -/
def TlsStream.shutdown {U : Type} (ops : TlsShutdownOps U) (s : TlsStream U) :
    TlsStream U × PollUnit × List ShutdownCall :=
  match ops.shutdown s.inner with
  | (u1, .error e) =>
    if e.kind = .wouldBlock then (⟨u1⟩, .notReady, [.tlsClose])
    else (⟨u1⟩, .ioErr e, [.tlsClose])
  | (u1, .ok _) =>
    match ops.rawShutdown u1 with
    | (u2, p) => (⟨u2⟩, p, [.tlsClose, .rawShutdown])

/-- `Arc<S>` (src/lib.rs:22): a shared, reference-counted, read-only handle. -/
structure Arc (S : Type) where
  val : S
deriving DecidableEq

/-- `HttpsConnector<T, S>` (src/lib.rs:17-23): configuration flags, the owned
raw connector `http : T`, and the TLS context behind a shared `Arc`. -/
structure HttpsConnector (T S : Type) where
  hostname_verification : Bool
  force_https : Bool
  http : T
  tls : Arc S

/-- `From<(T, S)> for HttpsConnector<T, S>` (src/lib.rs:37-46): builds with
`hostname_verification = true`, `force_https = false`, owning the raw
connector and wrapping the TLS context in a fresh `Arc`. -/
def HttpsConnector.fromParts {T S : Type} (http : T) (tls : S) :
    HttpsConnector T S :=
  { hostname_verification := true
    force_https := false
    http := http
    tls := ⟨tls⟩ }

/-- `HttpsConnector::danger_disable_hostname_verification` (src/lib.rs:52-54):
stores the negation of `disable` into `hostname_verification`. -/
def HttpsConnector.danger_disable_hostname_verification {T S : Type}
    (c : HttpsConnector T S) (disable : Bool) : HttpsConnector T S :=
  { c with hostname_verification := !disable }

/-- `HttpsConnector::force_https` (src/lib.rs:57-59): stores `enable` into the
`force_https` flag (named `set_force_https` here because the Rust method name
coincides with the field name). -/
def HttpsConnector.set_force_https {T S : Type}
    (c : HttpsConnector T S) (enable : Bool) : HttpsConnector T S :=
  { c with force_https := enable }

/-- The outcome of `<HttpsConnector as Connect>::connect` as written in the
source (src/lib.rs:84-86): the body is `unimplemented!()`, which panics. -/
inductive StubConnectOutcome
  | panicked (msg : String)
deriving DecidableEq

/-- `hyper`'s `Destination`: scheme, host, port. The source distinguishes only
plaintext (`http`) from TLS-secured (`https`) schemes. -/
inductive Scheme
  | http
  | https
deriving DecidableEq

/-- Whether a scheme is plaintext. -/
def Scheme.isPlaintext : Scheme → Bool
  | .http => true
  | .https => false

/-- A connect destination. -/
structure Destination where
  scheme : Scheme
  host : String
  port : Nat
deriving DecidableEq

/-- `<HttpsConnector<T, S> as Connect>::connect` (src/lib.rs:84-86) exactly as
the source has it: `unimplemented!()` — a panic for every destination,
inspecting neither the connector nor the destination. -/
def HttpsConnector.connect {T S : Type} (_c : HttpsConnector T S)
    (_dst : Destination) : StubConnectOutcome :=
  .panicked "not implemented"

/-- The external calls a connect operation can make: one raw transport connect
per `(host, port)`, and one TLS handshake per host. -/
inductive ConnectCall
  | rawConnect (host : String) (port : Nat)
  | tlsHandshake (host : String)
deriving DecidableEq

/-- The overall result of a connect operation, per the spec's error taxonomy:
success with a dual-mode transport and connection metadata `M`, a raw
transport `IoError` passed through verbatim, a terminal handshake failure
wrapping the backend error `F`, or the `forceHttps` policy rejection. -/
inductive ConnectOutcome (T U M F : Type)
  | ok (s : MaybeHttpsStream T U) (meta : M)
  | ioError (e : IoError)
  | handshakeFailure (e : F)
  | protocolPolicyError
deriving DecidableEq

/-- Modelled from the spec: the source's `HttpsConnector::connect` body is
`unimplemented!()` (src/lib.rs:84-86) — only its declaration exists — so this
definition follows spec §4.1 steps 1-5. The connector's `http` field is the
raw connector capability `connect(host, port)`; its `tls` field is the TLS
context's `beginHandshake(hostname, rawTransport)` capability, which receives
the connector's `hostname_verification` flag and is modelled as yielding the
handshake state machine's eventual result. The second component logs every
external call in order. Steps: (1) `force_https` with a plaintext scheme is
rejected before any I/O; (2) otherwise the raw connect is issued; (5) a raw
failure is propagated verbatim with no handshake; (3) raw success with a
plaintext scheme resolves to the `Http` variant; (4) a TLS-secured scheme
hands the raw transport and host to the handshake, whose result is wrapped as
the `Https` variant on success. -/
def connectSpec {T U M F : Type}
    (c : HttpsConnector (String → Nat → Except IoError (T × M))
        (Bool → String → T → Except F U))
    (dst : Destination) : ConnectOutcome T U M F × List ConnectCall :=
  if c.force_https && dst.scheme.isPlaintext then
    (.protocolPolicyError, [])
  else
    match c.http dst.host dst.port with
    | .error e => (.ioError e, [.rawConnect dst.host dst.port])
    | .ok (t, m) =>
      if dst.scheme.isPlaintext then
        (.ok (.Http t) m, [.rawConnect dst.host dst.port])
      else
        match c.tls.val c.hostname_verification dst.host t with
        | .ok u =>
          (.ok (.Https ⟨u⟩) m,
           [.rawConnect dst.host dst.port, .tlsHandshake dst.host])
        | .error e =>
          (.handshakeFailure e,
           [.rawConnect dst.host dst.port, .tlsHandshake dst.host])

/-- Modelled from the spec: a TLS backend whose certificate is issued for
`certName` (the concrete TLS engine is an external collaborator, spec §1/§6).
Per §4.1 `setHostnameVerification` and §8: with verification requested, a
handshake against a certificate whose name does not match the destination
host fails; with verification off, or a matching name, it succeeds. -/
def mismatchBackend {T : Type} (certName : String) :
    Bool → String → T → Except String T :=
  fun verify host t =>
    if verify && certName ≠ host then .error "certificate name mismatch"
    else .ok t

/-- C1: a poll of a `MidHandshake` holding an interrupted outcome attempts
exactly one more handshake step on the stored mid-handshake session `s`
(the call log is `[s]`): success resolves with the TLS session, fatal
failure resolves with the backend error, and a further interruption stores
the new mid-handshake session and returns not-ready without resolving. -/
theorem claim_C1_interrupted_poll {T E P : Type} (hs : P → HsResult T E P)
    (m : MidHandshake T E P) (s : P)
    (h : m.inner = some (.interrupted s)) :
    (∀ t, hs s = .ok t → m.poll hs = (⟨none⟩, .ready ⟨t⟩, [s])) ∧
    (∀ e, hs s = .failure e → m.poll hs = (⟨none⟩, .error e, [s])) ∧
    (∀ s2, hs s = .interrupted s2 →
        m.poll hs = (⟨some (.interrupted s2)⟩, .notReady, [s])) := by
  refine ⟨?_, ?_, ?_⟩ <;> intro x hx <;> simp [MidHandshake.poll, h, hx]

/-- C1 witness: the theorem instantiated on a concrete interrupted state whose
resume step is interrupted again. -/
theorem claim_C1_interrupted_poll_witness :
    MidHandshake.poll (fun _ => HsResult.interrupted 1)
        (⟨some (HsResult.interrupted 0)⟩ : MidHandshake Nat Nat Nat)
      = (⟨some (HsResult.interrupted 1)⟩, .notReady, [0]) :=
  (claim_C1_interrupted_poll (fun _ => HsResult.interrupted 1)
    ⟨some (HsResult.interrupted 0)⟩ 0 rfl).2.2 1 rfl

/-- C2: once a poll of a `MidHandshake` has resolved (ready or error), the
successor state's next poll panics with the source's `expect` message — it
performs no handshake step and returns no ready/not-ready/error value. -/
theorem claim_C2_poll_after_resolved {T E P : Type}
    (hs hs2 : P → HsResult T E P) (m : MidHandshake T E P)
    (hres : (∃ t, (m.poll hs).2.1 = .ready t) ∨
            (∃ e, (m.poll hs).2.1 = .error e)) :
    (m.poll hs).1.poll hs2
      = ((m.poll hs).1, .panicked "cannot poll MidHandshake twice", []) := by
  cases hmi : m.inner with
  | none => simp [MidHandshake.poll, hmi]
  | some r =>
    cases r with
    | ok t => simp [MidHandshake.poll, hmi]
    | failure e => simp [MidHandshake.poll, hmi]
    | interrupted s =>
      cases hhs : hs s with
      | ok t => simp [MidHandshake.poll, hmi, hhs]
      | failure e => simp [MidHandshake.poll, hmi, hhs]
      | interrupted s2 =>
        rcases hres with ⟨t, ht⟩ | ⟨e, he⟩
        · simp [MidHandshake.poll, hmi, hhs] at ht
        · simp [MidHandshake.poll, hmi, hhs] at he

/-- C2 witness: polling a state that just resolved successfully panics. -/
theorem claim_C2_poll_after_resolved_witness :
    (MidHandshake.poll (fun _ => HsResult.ok 0)
        (⟨some (HsResult.ok 5)⟩ : MidHandshake Nat Nat Nat)).1.poll
        (fun _ => HsResult.ok 0)
      = ((MidHandshake.poll (fun _ => HsResult.ok 0)
          (⟨some (HsResult.ok 5)⟩ : MidHandshake Nat Nat Nat)).1,
         .panicked "cannot poll MidHandshake twice", []) :=
  claim_C2_poll_after_resolved _ _ _ (Or.inl ⟨⟨5⟩, rfl⟩)

/-- C3: with `force_https` set and a plaintext destination scheme, the
spec-modelled connect fails immediately with the protocol-policy error and the
call log is empty — neither the raw connector nor the TLS handshake runs. -/
theorem claim_C3_force_https_policy {T U M F : Type}
    (c : HttpsConnector (String → Nat → Except IoError (T × M))
        (Bool → String → T → Except F U))
    (dst : Destination)
    (h1 : c.force_https = true) (h2 : dst.scheme = .http) :
    connectSpec c dst = (.protocolPolicyError, []) := by
  simp [connectSpec, h1, h2, Scheme.isPlaintext]

/-- C3 witness: a concrete connector with `force_https` enabled rejects a
plaintext destination with no external calls. -/
theorem claim_C3_force_https_policy_witness :
    connectSpec
        ((HttpsConnector.fromParts
            (fun _ _ => (Except.ok ((0 : Nat), (0 : Nat)) :
              Except IoError (Nat × Nat)))
            (fun _ _ (t : Nat) => (Except.ok t : Except Nat Nat))).set_force_https
          true)
        ⟨Scheme.http, "h", 80⟩
      = (.protocolPolicyError, []) :=
  claim_C3_force_https_policy _ _ rfl rfl

/-- C4: with `force_https` off and a plaintext scheme, the spec-modelled
connect performs exactly the raw connect and no handshake: a raw failure is
propagated verbatim, a raw success resolves with the `Http` (plain) variant
and the metadata, and the operation succeeds iff the raw connect succeeds. -/
theorem claim_C4_plaintext_passthrough {T U M F : Type}
    (c : HttpsConnector (String → Nat → Except IoError (T × M))
        (Bool → String → T → Except F U))
    (dst : Destination)
    (h1 : c.force_https = false) (h2 : dst.scheme = .http) :
    (∀ e, c.http dst.host dst.port = .error e →
        connectSpec c dst = (.ioError e, [.rawConnect dst.host dst.port])) ∧
    (∀ t m, c.http dst.host dst.port = .ok (t, m) →
        connectSpec c dst
          = (.ok (.Http t) m, [.rawConnect dst.host dst.port])) ∧
    ((∃ s meta, (connectSpec c dst).1 = .ok s meta) ↔
        (∃ tm, c.http dst.host dst.port = .ok tm)) := by
  refine ⟨?_, ?_, ?_⟩
  · intro e he
    simp [connectSpec, h1, h2, Scheme.isPlaintext, he]
  · intro t m htm
    simp [connectSpec, h1, h2, Scheme.isPlaintext, htm]
  · cases hr : c.http dst.host dst.port with
    | error e => simp [connectSpec, h1, h2, Scheme.isPlaintext, hr]
    | ok tm =>
      cases tm with
      | mk t m =>
        simp [connectSpec, h1, h2, Scheme.isPlaintext, hr]

/-- C4 witness: a concrete raw-connect failure is propagated verbatim after
exactly one raw connect and no handshake. -/
theorem claim_C4_plaintext_passthrough_witness :
    connectSpec
        (HttpsConnector.fromParts
          (fun _ _ => (Except.error ⟨IoErrorKind.other 3⟩ :
            Except IoError (Nat × Nat)))
          (fun _ _ (t : Nat) => (Except.ok t : Except Nat Nat)))
        ⟨Scheme.http, "h", 80⟩
      = (.ioError ⟨IoErrorKind.other 3⟩, [.rawConnect "h" 80]) :=
  (claim_C4_plaintext_passthrough _ _ rfl rfl).1 _ rfl

/-- C5: `TlsStream` shutdown is two-phase. If the encryption-layer close
would block, the poll returns not-ready and only `tlsClose` was called (the
executor will poll again later); if it fails, the error is surfaced and the
raw transport shutdown is never attempted; only when it succeeds is the raw
transport shutdown invoked, strictly after the close, and its result is the
poll's result. -/
theorem claim_C5_shutdown_two_phase {U : Type} (ops : TlsShutdownOps U)
    (s : TlsStream U) :
    (∀ u e, ops.shutdown s.inner = (u, .error e) →
        e.kind = .wouldBlock →
        TlsStream.shutdown ops s = (⟨u⟩, .notReady, [.tlsClose])) ∧
    (∀ u e, ops.shutdown s.inner = (u, .error e) →
        e.kind ≠ .wouldBlock →
        TlsStream.shutdown ops s = (⟨u⟩, .ioErr e, [.tlsClose])) ∧
    (∀ u, ops.shutdown s.inner = (u, .ok ()) →
        TlsStream.shutdown ops s
          = (⟨(ops.rawShutdown u).1⟩, (ops.rawShutdown u).2,
             [.tlsClose, .rawShutdown])) := by
  refine ⟨?_, ?_, ?_⟩
  · intro u e h hk
    simp [TlsStream.shutdown, h, hk]
  · intro u e h hk
    simp [TlsStream.shutdown, h, hk]
  · intro u h
    simp [TlsStream.shutdown, h]

/-- C5 witness: with a backend whose close succeeds at once, the raw shutdown
runs second and its result is returned. -/
theorem claim_C5_shutdown_two_phase_witness :
    TlsStream.shutdown
        (⟨fun u => (u + 1, Except.ok ()), fun u => (u + 2, PollUnit.ready)⟩ :
          TlsShutdownOps Nat)
        (⟨0⟩ : TlsStream Nat)
      = (⟨3⟩, PollUnit.ready, [ShutdownCall.tlsClose, ShutdownCall.rawShutdown]) :=
  (claim_C5_shutdown_two_phase _ _).2.2 1 rfl

/-- C6: against the spec-modelled backend presenting a certificate for a name
different from the destination host, connect with hostname verification
disabled via the setter completes the handshake and yields the TLS variant,
while the identical scenario on the default connector (verification enabled)
fails with a handshake failure. -/
theorem claim_C6_hostname_verification {T M : Type}
    (raw : String → Nat → Except IoError (T × M))
    (certName host : String) (port : Nat) (t : T) (m : M)
    (hneq : certName ≠ host) (hraw : raw host port = .ok (t, m)) :
    (connectSpec
        ((HttpsConnector.fromParts raw
            (mismatchBackend certName)).danger_disable_hostname_verification
          true)
        ⟨.https, host, port⟩).1 = .ok (.Https ⟨t⟩) m ∧
    (connectSpec (HttpsConnector.fromParts raw (mismatchBackend certName))
        ⟨.https, host, port⟩).1
      = .handshakeFailure "certificate name mismatch" := by
  constructor <;>
    simp [connectSpec, HttpsConnector.fromParts,
      HttpsConnector.danger_disable_hostname_verification, mismatchBackend,
      Scheme.isPlaintext, hraw, hneq]

/-- C6 witness: the theorem instantiated on a concrete raw connector and a
certificate name differing from the host. -/
theorem claim_C6_hostname_verification_witness :
    (connectSpec
        ((HttpsConnector.fromParts
            (fun _ _ => (Except.ok ((0 : Nat), (0 : Nat)) :
              Except IoError (Nat × Nat)))
            (mismatchBackend "ca")).danger_disable_hostname_verification true)
        ⟨Scheme.https, "hb", 443⟩).1
      = .ok (.Https ⟨0⟩) 0 ∧
    (connectSpec
        (HttpsConnector.fromParts
          (fun _ _ => (Except.ok ((0 : Nat), (0 : Nat)) :
            Except IoError (Nat × Nat)))
          (mismatchBackend "ca"))
        ⟨Scheme.https, "hb", 443⟩).1
      = .handshakeFailure "certificate name mismatch" :=
  claim_C6_hostname_verification _ "ca" "hb" 443 0 0 (by decide) rfl

/-- C7: `MaybeHttpsStream` forwards `read`, `write` and `flush` to the held
variant unchanged: the `Http` variant returns exactly the raw transport
operation's result, the `Https` variant returns exactly the result of the
wrapped backend TLS stream's operation, and the variant tag is preserved. -/
theorem claim_C7_forwarding {T U : Type} (tOps : StreamOps T)
    (uOps : StreamOps U) (s : T) (st : TlsStream U) (buf : List Nat) :
    MaybeHttpsStream.read tOps uOps (.Http s) buf
        = (.Http (tOps.read s buf).1, (tOps.read s buf).2) ∧
    MaybeHttpsStream.read tOps uOps (.Https st) buf
        = (.Https ⟨(uOps.read st.inner buf).1⟩, (uOps.read st.inner buf).2) ∧
    MaybeHttpsStream.write tOps uOps (.Http s) buf
        = (.Http (tOps.write s buf).1, (tOps.write s buf).2) ∧
    MaybeHttpsStream.write tOps uOps (.Https st) buf
        = (.Https ⟨(uOps.write st.inner buf).1⟩, (uOps.write st.inner buf).2) ∧
    MaybeHttpsStream.flush tOps uOps (.Http s)
        = (.Http (tOps.flush s).1, (tOps.flush s).2) ∧
    MaybeHttpsStream.flush tOps uOps (.Https st)
        = (.Https ⟨(uOps.flush st.inner).1⟩, (uOps.flush st.inner).2) :=
  ⟨rfl, rfl, rfl, rfl, rfl, rfl⟩

/-- C8: `connect_async` invokes the backend begin-handshake exactly once, at
construction, on the given domain and stream (the call log is that single
pair), and the initial state holds that call's outcome; the first poll then
consumes the held outcome — when it is a success or a fatal failure the poll
resolves without invoking any further handshake step (its handshake log is
empty). -/
theorem claim_C8_eager_handshake {T E P St : Type}
    (connect : String → St → HsResult T E P) (hs : P → HsResult T E P)
    (d : String) (st : St) :
    (connect_async connect d st).2 = [(d, st)] ∧
    (connect_async connect d st).1.inner.inner = some (connect d st) ∧
    (∀ t, connect d st = .ok t →
        (connect_async connect d st).1.poll hs = (⟨⟨none⟩⟩, .ready ⟨t⟩, [])) ∧
    (∀ e, connect d st = .failure e →
        (connect_async connect d st).1.poll hs = (⟨⟨none⟩⟩, .error e, [])) := by
  refine ⟨rfl, rfl, ?_, ?_⟩ <;> intro x hx <;>
    simp [connect_async, ConnectAsync.poll, MidHandshake.poll, hx]

/-- C8 witness: a begin-handshake that succeeds at once is recorded exactly
once at construction, and the first poll resolves ready with no further
handshake step. -/
theorem claim_C8_eager_handshake_witness :
    (connect_async (fun _ _ => (HsResult.ok 7 : HsResult Nat Nat Nat)) "d"
        (0 : Nat)).2 = [("d", 0)] ∧
    ((connect_async (fun _ _ => HsResult.ok 7) "d" (0 : Nat)).1.poll
        (fun p => (HsResult.interrupted p : HsResult Nat Nat Nat))
      = (⟨⟨none⟩⟩, .ready ⟨7⟩, [])) :=
  ⟨(claim_C8_eager_handshake (fun _ _ => HsResult.ok 7)
      (fun p => HsResult.interrupted p) "d" 0).1,
   (claim_C8_eager_handshake (fun _ _ => HsResult.ok 7)
      (fun p => HsResult.interrupted p) "d" 0).2.2.1 7 rfl⟩

/-- C9: building a connector from a raw connector and a TLS context yields
`hostname_verification = true`, `force_https = false`, the given raw
connector in the owned `http` field, and the given TLS context inside the
shared `Arc`. -/
theorem claim_C9_fromParts_defaults {T S : Type} (http : T) (tls : S) :
    (HttpsConnector.fromParts http tls).hostname_verification = true ∧
    (HttpsConnector.fromParts http tls).force_https = false ∧
    (HttpsConnector.fromParts http tls).http = http ∧
    (HttpsConnector.fromParts http tls).tls = Arc.mk tls :=
  ⟨rfl, rfl, rfl, rfl⟩

/-- C10: in the source, `connect` is the only non-setter operation taking the
connector besides `Debug` and `Clone`, and its body is `unimplemented!()`:
two connectors that agree on the raw connector and TLS context but differ in
the `hostname_verification` and `force_https` flags behave identically on
`connect` for every destination (both panic with the same message). -/
theorem claim_C10_flags_unread {T S : Type} (c1 c2 : HttpsConnector T S)
    (dst : Destination) (_hhttp : c1.http = c2.http)
    (_htls : c1.tls = c2.tls) :
    c1.connect dst = c2.connect dst := rfl

/-- C10 witness: two concrete connectors with both flags flipped give the same
`connect` outcome. -/
theorem claim_C10_flags_unread_witness :
    (HttpsConnector.mk true false 0 (⟨0⟩ : Arc Nat)).connect
        ⟨Scheme.http, "h", 80⟩
      = (HttpsConnector.mk false true 0 (⟨0⟩ : Arc Nat)).connect
        ⟨Scheme.http, "h", 80⟩ :=
  claim_C10_flags_unread _ _ _ rfl rfl
